import Mathlib

/-!
Verification of `image_generator.py` (trackzero/bedrock): a shallow embedding of the
script's request builders, response unwrapping, base64 persistence and orchestration
flow, followed by theorems settling the specification's claims about them.

Conventions of the embedding:
* Python dicts with a fixed shape become structures; optional keys become `Option` fields.
* Parsed JSON values (the response envelopes) become the inductive `Json`.
* Python exceptions become the inductive `PyError`; fallible code returns `Except`.
* Side effects (prints, log records, remote calls, file writes) are collected in an
  explicit event trace; the state of the two output directories is threaded as lists of
  existing file names.
* The remote invocation capability (`bedrock_runtime_client.invoke_model` together with
  `response["body"].read()` and `json.loads`) is an oracle mapping a model id and a
  request body to a parsed response envelope or an error.  Request bodies are passed in
  structured form; `json.dumps` is injective on the shapes the script builds, so nothing
  is lost by not serialising.
* `random.randint(lo, hi)` is driven by an explicit entropy parameter, so that theorems
  can quantify over every outcome of the random source.
-/

namespace ImageGenerator

/-- JSON-like values: the shape of parsed response envelopes (`json.loads` output). -/
inductive Json where
  | null : Json
  | jbool (b : Bool) : Json
  | num (n : Int) : Json
  | str (s : String) : Json
  | arr (items : List Json) : Json
  | obj (fields : List (String × Json)) : Json

/-- Payload carried by a `botocore.exceptions.ClientError` raised by the remote call. -/
structure ClientErrorInfo where
  message : String
deriving DecidableEq

/-- Python exceptions that can arise in the script.  `malformedResponseError` is the error
class named by the specification's taxonomy; it is included so that claims about it can be
stated, but the source never raises it. -/
inductive PyError where
  | clientError (e : ClientErrorInfo)
  | keyError (key : String)
  | indexError
  | typeError (msg : String)
  | binasciiError (msg : String)
  | valueError (msg : String)
  | malformedResponseError
deriving DecidableEq

/-- Python `d[key]` on a parsed JSON value: `dict` lookup raising `KeyError` when the key
is absent; subscripting any non-`dict` value with a string key raises `TypeError`. -/
def Json.getField : Json → String → Except PyError Json
  | .obj fields, k =>
      match fields.lookup k with
      | some v => .ok v
      | none => .error (.keyError k)
  | _, _ => .error (.typeError "value is not subscriptable by a string key")

/-- Python `x[i]` for a non-negative integer literal index: list indexing raising
`IndexError` when out of range; string indexing yields a one-character string; a JSON
object is a `dict` with string keys, so an integer subscript raises `KeyError`; other
values raise `TypeError`. -/
def Json.getIndex : Json → Nat → Except PyError Json
  | .arr items, i =>
      match items.get? i with
      | some v => .ok v
      | none => .error .indexError
  | .str s, i =>
      match s.data.get? i with
      | some c => .ok (.str (String.mk [c]))
      | none => .error .indexError
  | .obj _, i => .error (.keyError (Nat.repr i))
  | _, _ => .error (.typeError "value is not subscriptable")

/-- One element of `text_prompts`: the dict `{"text": prompt}`. -/
structure SDTextPrompt where
  text : String
deriving DecidableEq

/-- The Stable Diffusion request dict built at lines 56-64 of `image_generator.py`. -/
structure SDBody where
  text_prompts : List SDTextPrompt
  seed : Nat
  cfg_scale : Nat
  steps : Nat
  style_preset : Option String
deriving DecidableEq

/-- Body construction of `invoke_stable_diffusion` (lines 56-64): the dict literal always
carries `text_prompts`, `seed`, `cfg_scale = 10` and `steps = 30`; the key
`style_preset` is added only when `if style_preset:` holds, i.e. when the argument is
neither `None` nor the empty string. -/
def invoke_stable_diffusion_body (prompt : String) (seed : Nat)
    (style_preset : Option String) : SDBody :=
  let body : SDBody :=
    { text_prompts := [{ text := prompt }], seed := seed, cfg_scale := 10, steps := 30,
      style_preset := none }
  match style_preset with
  | some s => if s = "" then body else { body with style_preset := some s }
  | none => body

/-- The dict `{"text": prompt}` under the `textToImageParams` key. -/
structure TitanTextToImageParams where
  text : String
deriving DecidableEq

/-- The dict under the `imageGenerationConfig` key (lines 97-104). -/
structure TitanImageGenerationConfig where
  numberOfImages : Nat
  quality : String
  cfgScale : ℚ
  height : Nat
  width : Nat
  seed : Nat
deriving DecidableEq

/-- The Titan Image request dict built at lines 93-106 of `image_generator.py`. -/
structure TitanBody where
  taskType : String
  textToImageParams : TitanTextToImageParams
  imageGenerationConfig : TitanImageGenerationConfig
deriving DecidableEq

/-- Body construction of `invoke_titan_image` (lines 93-106). -/
def invoke_titan_image_body (prompt : String) (seed : Nat) : TitanBody :=
  { taskType := "TEXT_IMAGE"
    textToImageParams := { text := prompt }
    imageGenerationConfig :=
      { numberOfImages := 4, quality := "standard", cfgScale := 8, height := 1024,
        width := 1024, seed := seed } }

/-- A request body handed to the invocation capability: one of the two provider dicts. -/
inductive RequestBody where
  | sd (b : SDBody)
  | titan (b : TitanBody)
deriving DecidableEq

/-- Observable effects of a run: progress prints, log records, remote invocations and
file writes. -/
inductive Event where
  | print (line : String)
  | logError (msg : String)
  | remoteInvoke (modelId : String) (body : RequestBody)
  | fileWrite (path : String) (bytes : List Nat)
deriving DecidableEq

/-- The external invocation capability: model id and request body to parsed response
envelope, or an error (a `clientError` for remote failures, per the collaborator's
contract). -/
abbrev Remote := String → RequestBody → Except PyError Json

def sd_model_id : String := "stability.stable-diffusion-xl"

def titan_model_id : String := "amazon.titan-image-generator-v1"

/-- `invoke_stable_diffusion` (lines 39-77): build the body, call the remote model, and
unwrap `response_body["artifacts"][0]["base64"]`.  The surrounding `try` catches only
`ClientError`, logs and re-raises it; extraction failures propagate without the log. -/
def invoke_stable_diffusion (remote : Remote) (prompt : String) (seed : Nat)
    (style_preset : Option String) : List Event × Except PyError Json :=
  let body := invoke_stable_diffusion_body prompt seed style_preset
  let callEvent := Event.remoteInvoke sd_model_id (.sd body)
  match remote sd_model_id (.sd body) with
  | .error (.clientError info) =>
      ([callEvent, Event.logError "Couldn\x27t invoke Stable Diffusion XL"],
        .error (.clientError info))
  | .error e => ([callEvent], .error e)
  | .ok response_body =>
      match response_body.getField "artifacts" >>= (Json.getIndex · 0) >>=
          (Json.getField · "base64") with
      | .ok v => ([callEvent], .ok v)
      | .error e => ([callEvent], .error e)

/-- `invoke_titan_image` (lines 79-119): build the body, call the remote model, and
unwrap `response_body["images"][0]`.  The surrounding `try` catches only `ClientError`,
logs and re-raises it; extraction failures propagate without the log. -/
def invoke_titan_image (remote : Remote) (prompt : String) (seed : Nat) :
    List Event × Except PyError Json :=
  let body := invoke_titan_image_body prompt seed
  let callEvent := Event.remoteInvoke titan_model_id (.titan body)
  match remote titan_model_id (.titan body) with
  | .error (.clientError info) =>
      ([callEvent, Event.logError "Couldn\x27t invoke Titan Image model"],
        .error (.clientError info))
  | .error e => ([callEvent], .error e)
  | .ok response_body =>
      match response_body.getField "images" >>= (Json.getIndex · 0) with
      | .ok v => ([callEvent], .ok v)
      | .error e => ([callEvent], .error e)

/-- Value of a character in the standard base64 alphabet (`binascii`'s
`table_a2b_base64`); `none` for every character outside the alphabet. -/
def b64val (c : Char) : Option Nat :=
  if 'A' ≤ c ∧ c ≤ 'Z' then some (c.toNat - 'A'.toNat)
  else if 'a' ≤ c ∧ c ≤ 'z' then some (c.toNat - 'a'.toNat + 26)
  else if '0' ≤ c ∧ c ≤ '9' then some (c.toNat - '0'.toNat + 52)
  else if c = '+' then some 62
  else if c = '/' then some 63
  else none

/-- CPython `binascii.a2b_base64` in its default non-strict mode, as called by
`base64.b64decode(s)`: characters outside the alphabet are discarded; an `=` completes
the current group when two or three data characters are pending (then decoding stops
successfully) and is otherwise skipped; each group of four 6-bit values yields three
bytes; if the input ends inside a group, `binascii.Error` is raised.  The state is
(remaining input, position inside the current group, pending bits, pending pad count,
reversed output). -/
def a2b_base64_core : List Char → Nat → Nat → Nat → List Nat → Except PyError (List Nat)
  | [], quad_pos, _, _, acc =>
      if quad_pos = 0 then .ok acc.reverse
      else if quad_pos = 1 then
        .error (.binasciiError
          "Invalid base64-encoded string: number of data characters cannot be 1 more than a multiple of 4")
      else .error (.binasciiError "Incorrect padding")
  | c :: rest, quad_pos, leftchar, pads, acc =>
      if c = '=' then
        if 2 ≤ quad_pos ∧ 4 ≤ quad_pos + (pads + 1) then .ok acc.reverse
        else a2b_base64_core rest quad_pos leftchar (pads + 1) acc
      else
        match b64val c with
        | none => a2b_base64_core rest quad_pos leftchar pads acc
        | some v =>
          match quad_pos with
          | 0 => a2b_base64_core rest 1 v 0 acc
          | 1 => a2b_base64_core rest 2 (v % 16) 0 ((leftchar * 4 + v / 16) :: acc)
          | 2 => a2b_base64_core rest 3 (v % 4) 0 ((leftchar * 16 + v / 4) :: acc)
          | _ => a2b_base64_core rest 0 0 0 ((leftchar * 64 + v) :: acc)

/-- `base64.b64decode` on a `str` argument: the string is first encoded as ASCII
(raising `ValueError` if any character is outside ASCII), then decoded by the
non-strict `a2b_base64`. -/
def b64decode (s : String) : Except PyError (List Nat) :=
  if s.data.all (fun c => c.toNat ≤ 127) then a2b_base64_core s.data 0 0 0 []
  else .error (.valueError "string argument should contain only ASCII characters")

/-- `base64.b64decode` applied to whatever value the response unwrapping produced, as
`save_image` does: non-string values raise `TypeError`. -/
def b64decodeValue : Json → Except PyError (List Nat)
  | .str s => b64decode s
  | _ => .error (.typeError "argument should be a bytes-like object or ASCII string")

/-- The character the standard base64 alphabet assigns to a 6-bit value (inverse of
`b64val` on values below 64). -/
def b64char (v : Nat) : Char :=
  if v < 26 then Char.ofNat ('A'.toNat + v)
  else if v < 52 then Char.ofNat ('a'.toNat + (v - 26))
  else if v < 62 then Char.ofNat ('0'.toNat + (v - 52))
  else if v = 62 then '+'
  else '/'

/-- `base64.b64encode` on a byte list: three input bytes become four alphabet
characters; a trailing group of one or two bytes is completed with `=` padding. -/
def b64encode : List Nat → List Char
  | [] => []
  | [a] => [b64char (a / 4), b64char (a % 4 * 16), '=', '=']
  | [a, b] => [b64char (a / 4), b64char (a % 4 * 16 + b / 16), b64char (b % 16 * 4), '=']
  | a :: b :: c :: rest =>
      b64char (a / 4) :: b64char (a % 4 * 16 + b / 16) ::
        b64char (b % 16 * 4 + c / 64) :: b64char (c % 64) :: b64encode rest

/-- `"image_" + str(i) + ".png"`: the file name `save_image` probes and uses. -/
def image_file_name (i : Nat) : String :=
  "image_" ++ Nat.repr i ++ ".png"

/-- The `while os.path.exists(...)` scan of `save_image` (lines 128-130), with explicit
fuel: starting at index `i`, return the first index whose file name is not among the
existing names. -/
def scan_index (dir : List String) : Nat → Nat → Nat
  | i, 0 => i
  | i, fuel + 1 => if image_file_name i ∈ dir then scan_index dir (i + 1) fuel else i

/-- The index `save_image` selects, starting the scan at 1.  Fuel `dir.length + 1`
always suffices: the candidate names are pairwise distinct, so among `dir.length + 1` of
them one is missing from the listing. -/
def next_image_index (dir : List String) : Nat :=
  scan_index dir 1 (dir.length + 1)

/-- `"output/" + model` (line 123). -/
def output_dir (model : String) : String := "output/" ++ model

/-- `save_image` (lines 122-138): pick the first free `image_<i>.png` in the output
directory, base64-decode the payload, and only then create and write the file.  Returns
the emitted events, the directory contents afterwards, and the path (or the error). -/
def save_image (base64_image_data : Json) (model : String) (dir : List String) :
    List Event × List String × Except PyError String :=
  let i := next_image_index dir
  let file_path := output_dir model ++ "/" ++ image_file_name i
  match b64decodeValue base64_image_data with
  | .error e => ([], dir, .error e)
  | .ok image_data =>
      ([Event.fileWrite file_path image_data], dir ++ [image_file_name i], .ok file_path)

/-- `random.randint(lo, hi)` driven by an explicit entropy value: every outcome of the
random source yields a result in `[lo, hi]` inclusive. -/
def randint (lo hi entropy : Nat) : Nat := lo + entropy % (hi - lo + 1)

/-- `"-" * 88`. -/
def dashes : String := String.mk (List.replicate 88 '-')

/-- The contents of the two output directories, `output/diffusion` and `output/titan`,
as lists of existing file names. -/
structure World where
  diffusion : List String
  titan : List String
deriving DecidableEq

/-- `invoke` (lines 141-163): print the banner, dispatch on the model id (an unknown id
falls through both branches and the function returns normally), draw a random seed in
the provider's range, call the wrapper, save the image, and print the saved path.  The
`try` catches only `ClientError`, logs it with the model id and re-raises; every other
error propagates without that log. -/
def invoke (remote : Remote) (entropy : Nat) (model_id prompt : String)
    (style_preset : Option String) (w : World) :
    List Event × World × Except PyError Unit :=
  let header := [Event.print dashes, Event.print ("Invoking: " ++ model_id),
    Event.print ("Prompt: " ++ prompt)]
  if model_id = sd_model_id then
    let seed := randint 0 4294967295 entropy
    let (events1, res) := invoke_stable_diffusion remote prompt seed style_preset
    match res with
    | .error (.clientError info) =>
        (header ++ events1 ++ [Event.logError ("Couldn\x27t invoke model " ++ model_id)],
          w, .error (.clientError info))
    | .error e => (header ++ events1, w, .error e)
    | .ok data =>
        let (events2, dir2, res2) := save_image data "diffusion" w.diffusion
        match res2 with
        | .ok image_path =>
            (header ++ events1 ++ events2 ++
              [Event.print ("The generated image has been saved to " ++ image_path)],
              { w with diffusion := dir2 }, .ok ())
        | .error e => (header ++ events1 ++ events2, { w with diffusion := dir2 }, .error e)
  else if model_id = titan_model_id then
    let seed := randint 0 2147483647 entropy
    let (events1, res) := invoke_titan_image remote prompt seed
    match res with
    | .error (.clientError info) =>
        (header ++ events1 ++ [Event.logError ("Couldn\x27t invoke model " ++ model_id)],
          w, .error (.clientError info))
    | .error e => (header ++ events1, w, .error e)
    | .ok data =>
        let (events2, dir2, res2) := save_image data "titan" w.titan
        match res2 with
        | .ok image_path =>
            (header ++ events1 ++ events2 ++
              [Event.print ("The generated image has been saved to " ++ image_path)],
              { w with titan := dir2 }, .ok ())
        | .error e => (header ++ events1 ++ events2, { w with titan := dir2 }, .error e)
  else
    (header, w, .ok ())

/-- `usage_demo` (lines 166-191): print the welcome banner, read the prompt (modelled as
a parameter), invoke Stable Diffusion with the `"photographic"` style preset, then
invoke Titan Image.  There is no `try` around the two `invoke` calls: an error raised by
the first propagates out of `usage_demo` before the second is reached. -/
def usage_demo (remote : Remote) (entropy_sd entropy_titan : Nat) (prompt : String)
    (w : World) : List Event × World × Except PyError Unit :=
  let welcome := [Event.print dashes,
    Event.print "Welcome to the Amazon Bedrock Runtime demo.", Event.print dashes]
  let (events1, w1, res1) := invoke remote entropy_sd sd_model_id prompt
    (some "photographic") w
  match res1 with
  | .error e => (welcome ++ events1, w1, .error e)
  | .ok _ =>
      let (events2, w2, res2) := invoke remote entropy_titan titan_model_id prompt none w1
      (welcome ++ events1 ++ events2, w2, res2)

/-- Decimal value of a digit character: inverse of `Nat.digitChar` on digits 0-9. -/
def decDigitVal (c : Char) : Nat := c.toNat - 48

/-- Decode a list of decimal digit characters back to the number they denote. -/
def decodeDecimal (l : List Char) : Nat :=
  l.foldl (fun acc c => acc * 10 + decDigitVal c) 0

/-- Modelled from the spec: a well-formed standard base64 string (complete four-character
groups over the alphabet, the final group optionally completed by one or two `=` pads).
This is the specification's notion of "standard base64" / "malformed base64", stated
independently of the source so the source's lenient decoder can be compared against it. -/
def isStdBase64Groups : List Char → Bool
  | [] => true
  | c1 :: c2 :: c3 :: c4 :: rest =>
      (b64val c1).isSome && (b64val c2).isSome &&
        (if rest.isEmpty then
          ((b64val c3).isSome && (b64val c4).isSome) ||
          ((b64val c3).isSome && c4 = '=') ||
          (c3 = '=' && c4 = '=')
        else (b64val c3).isSome && (b64val c4).isSome && isStdBase64Groups rest)
  | _ => false

/-- Modelled from the spec: `isStdBase64Groups` on the string's characters. -/
def isStdBase64 (s : String) : Bool := isStdBase64Groups s.data

/-- A remote capability that fails every call with a `ClientError`: a simulated
transport failure. -/
def failingRemote : Remote := fun _ _ => .error (.clientError { message := "transport error" })

/-- A remote capability answering every call with a well-formed envelope for the
respective provider, carrying the payload `"aQ=="` (the base64 encoding of byte 105). -/
def okRemote : Remote := fun model_id _ =>
  if model_id = sd_model_id then
    .ok (Json.obj [("artifacts", Json.arr [Json.obj [("base64", Json.str "aQ==")]])])
  else
    .ok (Json.obj [("images", Json.arr [Json.str "aQ=="])])

/-- Claim C1 (amended): the Stable Diffusion body carries the unmodified prompt as the
single element of `text_prompts`, the input seed, `cfg_scale = 10`, `steps = 30`; it
carries `style_preset` if and only if a non-empty style preset was supplied (the source
guards the key with Python truthiness, so an empty-string preset is treated as absent);
and for prompt "a red fox in snow", seed 42, style "photographic" the body is exactly the
dict required by the end-to-end scenario. -/
theorem sd_body_spec (prompt : String) (seed : Nat) (style_preset : Option String) :
    (invoke_stable_diffusion_body prompt seed style_preset).text_prompts =
      [{ text := prompt }] ∧
    (invoke_stable_diffusion_body prompt seed style_preset).seed = seed ∧
    (invoke_stable_diffusion_body prompt seed style_preset).cfg_scale = 10 ∧
    (invoke_stable_diffusion_body prompt seed style_preset).steps = 30 ∧
    (∀ s, style_preset = some s → s ≠ "" →
      (invoke_stable_diffusion_body prompt seed style_preset).style_preset = some s) ∧
    (style_preset = none ∨ style_preset = some "" →
      (invoke_stable_diffusion_body prompt seed style_preset).style_preset = none) ∧
    invoke_stable_diffusion_body "a red fox in snow" 42 (some "photographic") =
      { text_prompts := [{ text := "a red fox in snow" }], seed := 42, cfg_scale := 10,
        steps := 30, style_preset := some "photographic" } := by
  refine ⟨?_, ?_, ?_, ?_, ?_, ?_, rfl⟩ <;>
    cases style_preset with
    | none => simp [invoke_stable_diffusion_body]
    | some s =>
        by_cases h : s = "" <;>
          simp [invoke_stable_diffusion_body, h]

/-- Claim C1 witness: the amended claim applied to prompt "p", seed 7 and the supplied
non-empty preset "photographic" yields a body carrying that preset. -/
theorem sd_body_spec_witness :
    (invoke_stable_diffusion_body "p" 7 (some "photographic")).style_preset =
      some "photographic" :=
  (sd_body_spec "p" 7 (some "photographic")).2.2.2.2.1 "photographic" rfl (by decide)

/-- Claim C1 counterexample: the claim as stated fails for the supplied empty style
preset — a preset was supplied (`some ""` is not `none`) yet the built body carries no
`style_preset` key, because the source tests the preset with Python truthiness. -/
theorem sd_body_empty_preset :
    (some "" : Option String).isSome = true ∧
    invoke_stable_diffusion_body "a red fox in snow" 42 (some "") =
      { text_prompts := [{ text := "a red fox in snow" }], seed := 42, cfg_scale := 10,
        steps := 30, style_preset := none } ∧
    ((invoke_stable_diffusion_body "a red fox in snow" 42 (some "")).style_preset).isSome =
      false :=
  ⟨rfl, rfl, rfl⟩

/-- Claim C2 (confirmed): for every prompt and every seed in the Titan range the built
body is exactly the dict the spec demands; its `imageGenerationConfig.seed` is the input
seed and `numberOfImages` is 4 for every input whatsoever. -/
theorem titan_body_spec (prompt : String) (seed : Nat) (_hseed : seed ≤ 2147483647) :
    invoke_titan_image_body prompt seed =
      { taskType := "TEXT_IMAGE", textToImageParams := { text := prompt },
        imageGenerationConfig :=
          { numberOfImages := 4, quality := "standard", cfgScale := 8, height := 1024,
            width := 1024, seed := seed } } ∧
    (invoke_titan_image_body prompt seed).imageGenerationConfig.seed = seed ∧
    ∀ s : Nat, (invoke_titan_image_body prompt s).imageGenerationConfig.numberOfImages = 4 :=
  ⟨rfl, rfl, fun _ => rfl⟩

/-- Claim C2 witness: the claim applied to prompt "a red fox in snow" and seed 42. -/
theorem titan_body_spec_witness :
    invoke_titan_image_body "a red fox in snow" 42 =
      { taskType := "TEXT_IMAGE", textToImageParams := { text := "a red fox in snow" },
        imageGenerationConfig :=
          { numberOfImages := 4, quality := "standard", cfgScale := 8, height := 1024,
            width := 1024, seed := 42 } } :=
  (titan_body_spec "a red fox in snow" 42 (by decide)).1

/-- Claim C6 (code_bug): when the expected image field is absent the extraction step
does fail, but with the generic lookup errors of the host language (`IndexError` when
the artifact or image list is empty, `KeyError` when the key is missing), not with the
`MalformedResponseError` demanded by the specification's taxonomy — no code in the
source raises such an error. -/
theorem extraction_error_not_malformed :
    (invoke_stable_diffusion (fun _ _ => .ok (Json.obj [("artifacts", Json.arr [])]))
        "p" 7 none).2 = .error .indexError ∧
    (invoke_stable_diffusion (fun _ _ => .ok (Json.obj [])) "p" 7 none).2 =
      .error (.keyError "artifacts") ∧
    (invoke_titan_image (fun _ _ => .ok (Json.obj [("images", Json.arr [])])) "p" 7).2 =
      .error .indexError ∧
    (invoke_titan_image (fun _ _ => .ok (Json.obj [])) "p" 7).2 =
      .error (.keyError "images") ∧
    decide (PyError.indexError = PyError.malformedResponseError) = false ∧
    decide (PyError.keyError "artifacts" = PyError.malformedResponseError) = false :=
  ⟨rfl, rfl, rfl, rfl, by decide, by decide⟩

/-- Claim C10 (confirmed): for a model id that is neither of the two known ones,
`invoke` prints the banner and returns normally — no remote invocation, no file write,
no error: a silent no-op at the public interface. -/
theorem invoke_unknown_model (remote : Remote) (entropy : Nat) (model_id prompt : String)
    (style_preset : Option String) (w : World)
    (h1 : model_id ≠ sd_model_id) (h2 : model_id ≠ titan_model_id) :
    invoke remote entropy model_id prompt style_preset w =
      ([Event.print dashes, Event.print ("Invoking: " ++ model_id),
        Event.print ("Prompt: " ++ prompt)], w, .ok ()) := by
  simp [invoke, h1, h2]

/-- Claim C10 witness: the claim applied to the unknown model id "anthropic.claude-v2". -/
theorem invoke_unknown_model_witness :
    invoke failingRemote 0 "anthropic.claude-v2" "p" none { diffusion := [], titan := [] } =
      ([Event.print dashes, Event.print ("Invoking: " ++ "anthropic.claude-v2"),
        Event.print ("Prompt: " ++ "p")], { diffusion := [], titan := [] }, .ok ()) :=
  invoke_unknown_model failingRemote 0 "anthropic.claude-v2" "p" none
    { diffusion := [], titan := [] } (by decide) (by decide)

/-- Claim C7 counterexample: the string "!" is not standard base64, yet `save_image`
does not fail on it — Python's lenient decoder discards the non-alphabet character,
decodes to the empty byte string, and a file is written. -/
theorem save_image_lenient_counterexample :
    isStdBase64 "!" = false ∧
    save_image (.str "!") "diffusion" [] =
      ([Event.fileWrite "output/diffusion/image_1.png" []], ["image_1.png"],
        .ok "output/diffusion/image_1.png") :=
  ⟨rfl, rfl⟩

/-- Claim C8 counterexample: the pipeline accepts "!!!!" as an image payload (its decode
succeeds, yielding no bytes), but re-encoding the decoded bytes yields the empty string,
not the original "!!!!". -/
theorem b64_roundtrip_counterexample :
    b64decode "!!!!" = .ok [] ∧ String.mk (b64encode []) = "" ∧
    (("" : String) == "!!!!") = false :=
  ⟨rfl, rfl, rfl⟩

/-- Claim C4 (code_bug): with a remote that fails the Stable Diffusion call, the whole
`usage_demo` run aborts with that error after the first invocation — the trace is
exactly the welcome banner, the Stable Diffusion header, its remote call and the two log
records; the Titan invocation is never attempted (its header is never printed, and every
remote invocation in the trace is the Stable Diffusion one). -/
theorem usage_demo_not_independent :
    (usage_demo failingRemote 0 0 "p" { diffusion := [], titan := [] }).2.2 =
      .error (.clientError { message := "transport error" }) ∧
    (usage_demo failingRemote 0 0 "p" { diffusion := [], titan := [] }).1 =
      [Event.print dashes, Event.print "Welcome to the Amazon Bedrock Runtime demo.",
        Event.print dashes, Event.print dashes,
        Event.print ("Invoking: " ++ sd_model_id), Event.print ("Prompt: " ++ "p"),
        Event.remoteInvoke sd_model_id
          (.sd (invoke_stable_diffusion_body "p" (randint 0 4294967295 0)
            (some "photographic"))),
        Event.logError "Couldn\x27t invoke Stable Diffusion XL",
        Event.logError ("Couldn\x27t invoke model " ++ sd_model_id)] ∧
    ((usage_demo failingRemote 0 0 "p" { diffusion := [], titan := [] }).1.all fun e =>
      match e with
      | Event.remoteInvoke mid _ => mid == sd_model_id
      | Event.print line => !(line == "Invoking: " ++ titan_model_id)
      | _ => true) = true :=
  ⟨rfl, rfl, rfl⟩

/-- Accumulator lemma for the core of `Nat.repr`: the digits already produced are simply
appended to the accumulator. -/
theorem toDigitsCore_append (fuel : Nat) : ∀ (n : Nat) (ds : List Char),
    Nat.toDigitsCore 10 fuel n ds = Nat.toDigitsCore 10 fuel n [] ++ ds := by
  induction fuel with
  | zero => intro n ds; simp [Nat.toDigitsCore]
  | succ f ih =>
      intro n ds
      simp only [Nat.toDigitsCore]
      by_cases h : n / 10 = 0
      · simp [h]
      · simp only [h, if_false]
        rw [ih (n / 10) (Nat.digitChar (n % 10) :: ds), ih (n / 10) [Nat.digitChar (n % 10)]]
        simp

/-- The core of `Nat.repr` does not depend on the fuel as long as it exceeds the number. -/
theorem toDigitsCore_fuel (n : Nat) : ∀ f1 f2 : Nat, n < f1 → n < f2 →
    Nat.toDigitsCore 10 f1 n [] = Nat.toDigitsCore 10 f2 n [] := by
  induction n using Nat.strong_induction_on with
  | _ n ih =>
    intro f1 f2 h1 h2
    match f1, f2, h1, h2 with
    | f1 + 1, f2 + 1, h1, h2 =>
      simp only [Nat.toDigitsCore]
      by_cases h : n / 10 = 0
      · simp [h]
      · simp only [h, if_false]
        rw [toDigitsCore_append f1, toDigitsCore_append f2]
        congr 1
        exact ih (n / 10) (by omega) f1 f2 (by omega) (by omega)

/-- Recursion equation for `Nat.toDigits` at base 10, fuel eliminated. -/
theorem toDigits_unfold (n : Nat) :
    Nat.toDigits 10 n =
      if n < 10 then [Nat.digitChar n]
      else Nat.toDigits 10 (n / 10) ++ [Nat.digitChar (n % 10)] := by
  unfold Nat.toDigits
  by_cases h : n / 10 = 0
  · have hn : n < 10 := by omega
    simp only [Nat.toDigitsCore, h, if_pos hn, if_true]
    rw [Nat.mod_eq_of_lt hn]
  · have hn : ¬ n < 10 := by omega
    simp only [Nat.toDigitsCore, h, if_false, hn]
    rw [toDigitsCore_append]
    congr 1
    exact toDigitsCore_fuel (n / 10) n (n / 10 + 1) (by omega) (by omega)

/-- `decDigitVal` inverts `Nat.digitChar` on decimal digits. -/
theorem decDigitVal_digitChar (n : Nat) (h : n < 10) :
    decDigitVal (Nat.digitChar n) = n := by
  interval_cases n <;> rfl

/-- Decoding the decimal digit string of `n` returns `n`. -/
theorem decodeDecimal_toDigits (n : Nat) :
    decodeDecimal (Nat.toDigits 10 n) = n := by
  induction n using Nat.strong_induction_on with
  | _ n ih =>
    rw [toDigits_unfold]
    by_cases h : n < 10
    · simp only [if_pos h, decodeDecimal, List.foldl]
      rw [decDigitVal_digitChar n h]
      omega
    · simp only [if_neg h, decodeDecimal, List.foldl_append, List.foldl]
      have hrec := ih (n / 10) (by omega)
      simp only [decodeDecimal] at hrec
      rw [hrec, decDigitVal_digitChar (n % 10) (by omega)]
      omega

/-- The decimal representation of a natural number determines it. -/
theorem repr_injective : Function.Injective Nat.repr := by
  intro m n h
  have hd : Nat.toDigits 10 m = Nat.toDigits 10 n := by
    have h2 := congrArg String.data h
    simpa [Nat.repr, List.asString] using h2
  have h3 := congrArg decodeDecimal hd
  rwa [decodeDecimal_toDigits, decodeDecimal_toDigits] at h3

/-- Distinct indices give distinct `image_<i>.png` names. -/
theorem image_file_name_injective : Function.Injective image_file_name := by
  intro i j h
  apply repr_injective
  have hd := congrArg String.data h
  simp only [image_file_name, String.data_append] at hd
  rw [List.append_assoc, List.append_assoc] at hd
  apply String.ext
  exact List.append_cancel_right (List.append_cancel_left hd)

/-- Pigeonhole for the scan: among the first `dir.length + 1` candidate names, at least
one is not in the directory listing. -/
theorem exists_free_name (dir : List String) :
    ∃ k, k ≤ dir.length ∧ image_file_name (1 + k) ∉ dir := by
  by_contra hc
  push_neg at hc
  have hsub : (Finset.range (dir.length + 1)).image (fun k => image_file_name (1 + k)) ⊆
      dir.toFinset := by
    intro s hs
    rw [Finset.mem_image] at hs
    obtain ⟨k, hk, rfl⟩ := hs
    rw [List.mem_toFinset]
    have hk2 := Finset.mem_range.mp hk
    exact hc k (by omega)
  have hcard := Finset.card_le_card hsub
  rw [Finset.card_image_of_injective _ (fun a b hab => by
    have := image_file_name_injective hab; omega)] at hcard
  rw [Finset.card_range] at hcard
  have hle := dir.toFinset_card_le
  omega

/-- If some candidate within the fuel is free, the scan stops at a free name. -/
theorem scan_index_free (dir : List String) :
    ∀ fuel i, (∃ k, k < fuel ∧ image_file_name (i + k) ∉ dir) →
      image_file_name (scan_index dir i fuel) ∉ dir := by
  intro fuel
  induction fuel with
  | zero => rintro i ⟨k, hk, _⟩; omega
  | succ f ih =>
      rintro i ⟨k, hk, hfree⟩
      simp only [scan_index]
      by_cases hmem : image_file_name i ∈ dir
      · rw [if_pos hmem]
        apply ih
        match k, hk, hfree with
        | 0, _, hfree => exact absurd hmem (by simpa using hfree)
        | k + 1, hk, hfree =>
            exact ⟨k, by omega, by rw [show i + 1 + k = i + (k + 1) by omega]; exact hfree⟩
      · rw [if_neg hmem]; exact hmem

/-- Every index at or after the scan start and strictly before the scan result names an
existing file. -/
theorem scan_index_below (dir : List String) :
    ∀ fuel i j, i ≤ j → j < scan_index dir i fuel → image_file_name j ∈ dir := by
  intro fuel
  induction fuel with
  | zero => intro i j hij hlt; simp only [scan_index] at hlt; omega
  | succ f ih =>
      intro i j hij hlt
      simp only [scan_index] at hlt
      by_cases hmem : image_file_name i ∈ dir
      · rw [if_pos hmem] at hlt
        rcases Nat.eq_or_lt_of_le hij with rfl | hlt2
        · exact hmem
        · exact ih (i + 1) j hlt2 hlt
      · rw [if_neg hmem] at hlt; omega

/-- Claim C3 (confirmed): `save_image` selects as target `image_<i>.png` for the smallest
positive `i` whose name is absent from the directory; in an empty directory it selects
index 1, with exactly `image_1.png` and `image_2.png` present it selects index 3, and on
every successful decode the returned path is the output directory joined with that
name. -/
theorem next_image_index_spec (dir : List String) :
    image_file_name (next_image_index dir) ∉ dir ∧
    (∀ j, 0 < j → j < next_image_index dir → image_file_name j ∈ dir) ∧
    next_image_index [] = 1 ∧
    next_image_index ["image_1.png", "image_2.png"] = 3 ∧
    (∀ data model bytes, b64decodeValue data = .ok bytes →
      (save_image data model dir).2.2 =
        .ok (output_dir model ++ "/" ++ image_file_name (next_image_index dir))) := by
  refine ⟨?_, ?_, rfl, rfl, ?_⟩
  · unfold next_image_index
    apply scan_index_free
    obtain ⟨k, hk, hfree⟩ := exists_free_name dir
    exact ⟨k, by omega, hfree⟩
  · intro j hj hlt
    exact scan_index_below dir (dir.length + 1) 1 j hj hlt
  · intro data model bytes hok
    simp [save_image, hok]

/-- Claim C3 witness: for a directory holding exactly `image_1.png`, the selected name is
free, index 1 is indeed occupied, and saving a decodable payload returns the joined
path. -/
theorem next_image_index_spec_witness :
    image_file_name (next_image_index ["image_1.png"]) ∉ ["image_1.png"] ∧
    image_file_name 1 ∈ ["image_1.png"] ∧
    (save_image (.str "aQ==") "diffusion" ["image_1.png"]).2.2 =
      .ok (output_dir "diffusion" ++ "/" ++ image_file_name (next_image_index ["image_1.png"])) :=
  ⟨(next_image_index_spec ["image_1.png"]).1,
    (next_image_index_spec ["image_1.png"]).2.1 1 (by decide) (by decide),
    (next_image_index_spec ["image_1.png"]).2.2.2.2 (.str "aQ==") "diffusion" [105] rfl⟩

/-- On six-bit values, `b64val` inverts `b64char`. -/
theorem b64val_b64char : ∀ v < 64, b64val (b64char v) = some v := by decide

/-- The encoder never emits the padding character for a six-bit value. -/
theorem b64char_ne_pad : ∀ v < 64, b64char v ≠ '=' := by decide

/-- The encoder emits only ASCII characters on six-bit values. -/
theorem b64char_ascii : ∀ v < 64, (b64char v).toNat ≤ 127 := by decide

/-- Decoder step: a data character in group position 0 is absorbed as pending bits. -/
theorem a2b_step0 (x : Nat) (hx : x < 64) (l : List Char) (left pads : Nat)
    (acc : List Nat) :
    a2b_base64_core (b64char x :: l) 0 left pads acc = a2b_base64_core l 1 x 0 acc := by
  simp only [a2b_base64_core, if_neg (b64char_ne_pad x hx), b64val_b64char x hx]

/-- Decoder step: a data character in group position 1 emits one byte. -/
theorem a2b_step1 (x : Nat) (hx : x < 64) (l : List Char) (left pads : Nat)
    (acc : List Nat) :
    a2b_base64_core (b64char x :: l) 1 left pads acc =
      a2b_base64_core l 2 (x % 16) 0 ((left * 4 + x / 16) :: acc) := by
  simp only [a2b_base64_core, if_neg (b64char_ne_pad x hx), b64val_b64char x hx]

/-- Decoder step: a data character in group position 2 emits one byte. -/
theorem a2b_step2 (x : Nat) (hx : x < 64) (l : List Char) (left pads : Nat)
    (acc : List Nat) :
    a2b_base64_core (b64char x :: l) 2 left pads acc =
      a2b_base64_core l 3 (x % 4) 0 ((left * 16 + x / 4) :: acc) := by
  simp only [a2b_base64_core, if_neg (b64char_ne_pad x hx), b64val_b64char x hx]

/-- Decoder step: a data character in group position 3 completes the group. -/
theorem a2b_step3 (x : Nat) (hx : x < 64) (l : List Char) (left pads : Nat)
    (acc : List Nat) :
    a2b_base64_core (b64char x :: l) 3 left pads acc =
      a2b_base64_core l 0 0 0 ((left * 64 + x) :: acc) := by
  simp only [a2b_base64_core, if_neg (b64char_ne_pad x hx), b64val_b64char x hx]

/-- Decoder step: a first `=` after two data characters is only counted. -/
theorem a2b_pad_first (l : List Char) (left : Nat) (acc : List Nat) :
    a2b_base64_core ('=' :: l) 2 left 0 acc = a2b_base64_core l 2 left 1 acc := by
  simp [a2b_base64_core]

/-- Decoder step: a second `=` after two data characters finishes decoding. -/
theorem a2b_pad_done2 (l : List Char) (left : Nat) (acc : List Nat) :
    a2b_base64_core ('=' :: l) 2 left 1 acc = .ok acc.reverse := by
  simp [a2b_base64_core]

/-- Decoder step: an `=` after three data characters finishes decoding. -/
theorem a2b_pad_done3 (l : List Char) (left : Nat) (acc : List Nat) :
    a2b_base64_core ('=' :: l) 3 left 0 acc = .ok acc.reverse := by
  simp [a2b_base64_core]

/-- The non-strict decoder consumes an encoded byte list group by group and returns
exactly the original bytes after the accumulator. -/
theorem a2b_b64encode : ∀ bs : List Nat, (∀ x ∈ bs, x < 256) →
    ∀ acc : List Nat, a2b_base64_core (b64encode bs) 0 0 0 acc = .ok (acc.reverse ++ bs) := by
  intro bs
  induction bs using b64encode.induct with
  | case1 => intro _ acc; simp [b64encode, a2b_base64_core]
  | case2 a =>
      intro h acc
      have ha : a < 256 := h a (by simp)
      rw [show b64encode [a] = [b64char (a / 4), b64char (a % 4 * 16), '=', '='] from rfl]
      rw [a2b_step0 (a / 4) (by omega), a2b_step1 (a % 4 * 16) (by omega)]
      rw [show a / 4 * 4 + a % 4 * 16 / 16 = a by omega]
      rw [show a % 4 * 16 % 16 = 0 by omega]
      rw [a2b_pad_first, a2b_pad_done2]
      simp
  | case3 a b =>
      intro h acc
      have ha : a < 256 := h a (by simp)
      have hb : b < 256 := h b (by simp)
      rw [show b64encode [a, b] =
        [b64char (a / 4), b64char (a % 4 * 16 + b / 16), b64char (b % 16 * 4), '='] from rfl]
      rw [a2b_step0 (a / 4) (by omega), a2b_step1 (a % 4 * 16 + b / 16) (by omega)]
      rw [show a / 4 * 4 + (a % 4 * 16 + b / 16) / 16 = a by omega]
      rw [show (a % 4 * 16 + b / 16) % 16 = b / 16 by omega]
      rw [a2b_step2 (b % 16 * 4) (by omega)]
      rw [show b / 16 * 16 + b % 16 * 4 / 4 = b by omega]
      rw [show b % 16 * 4 % 4 = 0 by omega]
      rw [a2b_pad_done3]
      simp
  | case4 a b c rest ih =>
      intro h acc
      have ha : a < 256 := h a (by simp)
      have hb : b < 256 := h b (by simp)
      have hc : c < 256 := h c (by simp)
      rw [show b64encode (a :: b :: c :: rest) =
        b64char (a / 4) :: b64char (a % 4 * 16 + b / 16) ::
          b64char (b % 16 * 4 + c / 64) :: b64char (c % 64) :: b64encode rest from rfl]
      rw [a2b_step0 (a / 4) (by omega), a2b_step1 (a % 4 * 16 + b / 16) (by omega)]
      rw [show a / 4 * 4 + (a % 4 * 16 + b / 16) / 16 = a by omega]
      rw [show (a % 4 * 16 + b / 16) % 16 = b / 16 by omega]
      rw [a2b_step2 (b % 16 * 4 + c / 64) (by omega)]
      rw [show b / 16 * 16 + (b % 16 * 4 + c / 64) / 4 = b by omega]
      rw [show (b % 16 * 4 + c / 64) % 4 = c / 64 by omega]
      rw [a2b_step3 (c % 64) (by omega)]
      rw [show c / 64 * 64 + c % 64 = c by omega]
      rw [ih (fun x hx => h x (by simp [hx])) (c :: b :: a :: acc)]
      simp

/-- Every character the encoder emits on bytes is ASCII. -/
theorem b64encode_ascii : ∀ bs : List Nat, (∀ x ∈ bs, x < 256) →
    ∀ c ∈ b64encode bs, c.toNat ≤ 127 := by
  intro bs
  induction bs using b64encode.induct with
  | case1 => intro _ c hc; simp [b64encode] at hc
  | case2 a =>
      intro h c hc
      have ha : a < 256 := h a (by simp)
      simp only [b64encode, List.mem_cons, List.not_mem_nil, or_false] at hc
      rcases hc with rfl | rfl | rfl | rfl
      · exact b64char_ascii _ (by omega)
      · exact b64char_ascii _ (by omega)
      · decide
      · decide
  | case3 a b =>
      intro h c hc
      have ha : a < 256 := h a (by simp)
      have hb : b < 256 := h b (by simp)
      simp only [b64encode, List.mem_cons, List.not_mem_nil, or_false] at hc
      rcases hc with rfl | rfl | rfl | rfl
      · exact b64char_ascii _ (by omega)
      · exact b64char_ascii _ (by omega)
      · exact b64char_ascii _ (by omega)
      · decide
  | case4 a b c rest ih =>
      intro h d hd
      have ha : a < 256 := h a (by simp)
      have hb : b < 256 := h b (by simp)
      have hc : c < 256 := h c (by simp)
      simp only [b64encode, List.mem_cons] at hd
      rcases hd with rfl | rfl | rfl | rfl | hd
      · exact b64char_ascii _ (by omega)
      · exact b64char_ascii _ (by omega)
      · exact b64char_ascii _ (by omega)
      · exact b64char_ascii _ (by omega)
      · exact ih (fun x hx => h x (by simp [hx])) d hd

/-- Decoding a canonically encoded byte list returns exactly those bytes. -/
theorem b64decode_b64encode (bs : List Nat) (h : ∀ x ∈ bs, x < 256) :
    b64decode (String.mk (b64encode bs)) = .ok bs := by
  unfold b64decode
  rw [if_pos]
  · exact (a2b_b64encode bs h []).trans (by simp)
  · rw [show (String.mk (b64encode bs)).data = b64encode bs from rfl, List.all_eq_true]
    intro c hc
    exact decide_eq_true (b64encode_ascii bs h c hc)

/-- Claim C7 (amended): `save_image` decodes its input with Python's lenient base64
decoder and, when decoding succeeds, writes exactly the decoded bytes to the selected
target path; when decoding fails, the error propagates and no file is written (the
directory is unchanged and no write event is emitted).  On canonically encoded payloads
the decoded bytes are exactly the encoded ones.  The original claim's universal
"malformed input fails with DecodeError" is false because the lenient decoder discards
non-alphabet characters (see the counterexample). -/
theorem save_image_spec (data : Json) (model : String) (dir : List String) :
    (save_image data model dir =
      match b64decodeValue data with
      | .ok bytes =>
          ([Event.fileWrite (output_dir model ++ "/" ++ image_file_name (next_image_index dir))
              bytes],
            dir ++ [image_file_name (next_image_index dir)],
            .ok (output_dir model ++ "/" ++ image_file_name (next_image_index dir)))
      | .error e => ([], dir, .error e)) ∧
    (∀ bs : List Nat, (∀ x ∈ bs, x < 256) →
      b64decodeValue (.str (String.mk (b64encode bs))) = .ok bs) := by
  constructor
  · cases h : b64decodeValue data <;> simp [save_image, h]
  · intro bs hbs
    exact b64decode_b64encode bs hbs

/-- Claim C7 witness: saving the canonical payload "aQ==" into an empty directory
decodes to byte 105 and writes it to `output/diffusion/image_1.png`. -/
theorem save_image_spec_witness :
    b64decodeValue (.str (String.mk (b64encode [105]))) = .ok [105] :=
  (save_image_spec (.str "aQ==") "diffusion" []).2 [105] (by decide)

/-- Claim C8 (amended): for every payload in the image of the base64 encoder — every
canonically encoded byte string, which is what an actual image payload is — decoding
succeeds and re-encoding the decoded bytes yields the original string.  The original
claim over every accepted string is false (see the counterexample): the lenient decoder
also accepts strings outside the encoder's image. -/
theorem b64_roundtrip_canonical (s : String)
    (h : ∃ bs : List Nat, (∀ x ∈ bs, x < 256) ∧ String.mk (b64encode bs) = s) :
    ∃ bytes, b64decode s = .ok bytes ∧ String.mk (b64encode bytes) = s := by
  obtain ⟨bs, hbs, rfl⟩ := h
  exact ⟨bs, b64decode_b64encode bs hbs, rfl⟩

/-- Claim C8 witness: the canonical payload "aQ==" round-trips. -/
theorem b64_roundtrip_canonical_witness :
    ∃ bytes, b64decode "aQ==" = .ok bytes ∧ String.mk (b64encode bytes) = "aQ==" :=
  b64_roundtrip_canonical "aQ==" ⟨[105], by decide, by decide⟩

/-- The seed stored in the Stable Diffusion body is the seed argument, whatever the
style preset. -/
theorem sd_body_seed_eq (prompt : String) (seed : Nat) (style_preset : Option String) :
    (invoke_stable_diffusion_body prompt seed style_preset).seed = seed := by
  rcases style_preset with _ | s
  · rfl
  · by_cases h : s = "" <;> simp [invoke_stable_diffusion_body, h]

/-- `random.randint(0, hi)` never exceeds `hi`, whatever the entropy. -/
theorem randint_le (hi entropy : Nat) : randint 0 hi entropy ≤ hi := by
  unfold randint
  have := Nat.mod_lt entropy (show 0 < hi - 0 + 1 by omega)
  omega

/-- `save_image` emits no remote-invocation event. -/
theorem save_image_no_remote (data : Json) (model : String) (dir : List String) :
    ∀ m rb, Event.remoteInvoke m rb ∉ (save_image data model dir).1 := by
  intro m rb h
  unfold save_image at h
  rcases hd : b64decodeValue data with e | bs <;> rw [hd] at h <;> simp at h

/-- Every remote-invocation event of the Stable Diffusion wrapper carries the model id
and the body built from the wrapper's arguments. -/
theorem invoke_stable_diffusion_events (remote : Remote) (prompt : String) (seed : Nat)
    (style_preset : Option String) :
    ∀ m rb, Event.remoteInvoke m rb ∈
        (invoke_stable_diffusion remote prompt seed style_preset).1 →
      m = sd_model_id ∧ rb = .sd (invoke_stable_diffusion_body prompt seed style_preset) := by
  intro m rb hmem
  rw [invoke_stable_diffusion] at hmem
  rcases hr : remote sd_model_id
      (.sd (invoke_stable_diffusion_body prompt seed style_preset)) with e | v
  · rw [hr] at hmem
    cases e <;> simp_all
  · rw [hr] at hmem
    rcases hx : (v.getField "artifacts" >>= (Json.getIndex · 0) >>=
        (Json.getField · "base64")) with err | val <;> simp [hx] at hmem <;> simp_all

/-- Every remote-invocation event of the Titan wrapper carries the model id and the body
built from the wrapper's arguments. -/
theorem invoke_titan_image_events (remote : Remote) (prompt : String) (seed : Nat) :
    ∀ m rb, Event.remoteInvoke m rb ∈ (invoke_titan_image remote prompt seed).1 →
      m = titan_model_id ∧ rb = .titan (invoke_titan_image_body prompt seed) := by
  intro m rb hmem
  rw [invoke_titan_image] at hmem
  rcases hr : remote titan_model_id (.titan (invoke_titan_image_body prompt seed))
      with e | v
  · rw [hr] at hmem
    cases e <;> simp_all
  · rw [hr] at hmem
    rcases hx : (v.getField "images" >>= (Json.getIndex · 0)) with err | val <;>
      simp [hx] at hmem <;> simp_all

/-- Every remote-invocation event of `invoke` carries one of the two bodies built from
the prompt and the drawn seeds. -/
theorem invoke_remote_events (remote : Remote) (entropy : Nat) (model_id prompt : String)
    (style_preset : Option String) (w : World) :
    ∀ m rb, Event.remoteInvoke m rb ∈
        (invoke remote entropy model_id prompt style_preset w).1 →
      rb = .sd (invoke_stable_diffusion_body prompt (randint 0 4294967295 entropy)
          style_preset) ∨
      rb = .titan (invoke_titan_image_body prompt (randint 0 2147483647 entropy)) := by
  intro m rb hmem
  simp only [invoke] at hmem
  by_cases h1 : model_id = sd_model_id
  · rw [if_pos h1] at hmem
    rcases hw : invoke_stable_diffusion remote prompt (randint 0 4294967295 entropy)
        style_preset with ⟨events1, res⟩
    rw [hw] at hmem
    have hev : ∀ hm : Event.remoteInvoke m rb ∈ events1,
        rb = .sd (invoke_stable_diffusion_body prompt (randint 0 4294967295 entropy)
          style_preset) := by
      intro hm
      exact (invoke_stable_diffusion_events remote prompt _ style_preset m rb
        (by rw [hw]; exact hm)).2
    rcases res with e | data
    · rcases e with info | k | _ | msg | msg | msg | _ <;> simp at hmem <;>
        exact Or.inl (hev hmem)
    · simp at hmem
      rcases hs : save_image data "diffusion" w.diffusion with ⟨events2, dir2, res2⟩
      rw [hs] at hmem
      have hnr : Event.remoteInvoke m rb ∉ events2 := by
        have h2 := save_image_no_remote data "diffusion" w.diffusion m rb
        rw [hs] at h2
        exact h2
      rcases res2 with e2 | path <;> simp at hmem <;> rcases hmem with hmem | hmem
      · exact Or.inl (hev hmem)
      · exact absurd hmem hnr
      · exact Or.inl (hev hmem)
      · exact absurd hmem hnr
  · rw [if_neg h1] at hmem
    by_cases h2 : model_id = titan_model_id
    · rw [if_pos h2] at hmem
      rcases hw : invoke_titan_image remote prompt (randint 0 2147483647 entropy)
          with ⟨events1, res⟩
      rw [hw] at hmem
      have hev : ∀ hm : Event.remoteInvoke m rb ∈ events1,
          rb = .titan (invoke_titan_image_body prompt (randint 0 2147483647 entropy)) := by
        intro hm
        exact (invoke_titan_image_events remote prompt _ m rb (by rw [hw]; exact hm)).2
      rcases res with e | data
      · rcases e with info | k | _ | msg | msg | msg | _ <;> simp at hmem <;>
          exact Or.inr (hev hmem)
      · simp at hmem
        rcases hs : save_image data "titan" w.titan with ⟨events2, dir2, res2⟩
        rw [hs] at hmem
        have hnr : Event.remoteInvoke m rb ∉ events2 := by
          have h3 := save_image_no_remote data "titan" w.titan m rb
          rw [hs] at h3
          exact h3
        rcases res2 with e2 | path <;> simp at hmem <;> rcases hmem with hmem | hmem
        · exact Or.inr (hev hmem)
        · exact absurd hmem hnr
        · exact Or.inr (hev hmem)
        · exact absurd hmem hnr
    · rw [if_neg h2] at hmem
      simp at hmem

/-- Claim C9 (confirmed): for every outcome of the random source, every Stable Diffusion
request body that `invoke` hands to the remote capability carries a seed at most
2^32 - 1, and every Titan request body a seed at most 2^31 - 1 — no out-of-range seed is
ever placed into a request body. -/
theorem invoke_seed_in_range (remote : Remote) (entropy : Nat) (model_id prompt : String)
    (style_preset : Option String) (w : World) :
    (∀ m b, Event.remoteInvoke m (.sd b) ∈
        (invoke remote entropy model_id prompt style_preset w).1 →
      b.seed ≤ 4294967295) ∧
    (∀ m b, Event.remoteInvoke m (.titan b) ∈
        (invoke remote entropy model_id prompt style_preset w).1 →
      b.imageGenerationConfig.seed ≤ 2147483647) := by
  constructor
  · intro m b hmem
    rcases invoke_remote_events remote entropy model_id prompt style_preset w m (.sd b)
        hmem with h | h
    · injection h with hb
      rw [hb, sd_body_seed_eq]
      exact randint_le 4294967295 entropy
    · exact absurd h (by simp)
  · intro m b hmem
    rcases invoke_remote_events remote entropy model_id prompt style_preset w m (.titan b)
        hmem with h | h
    · exact absurd h (by simp)
    · injection h with hb
      rw [hb]
      exact randint_le 2147483647 entropy

/-- Claim C9 witness: in a successful Stable Diffusion run with entropy 0 the remote
invocation event is present and the theorem bounds its seed. -/
theorem invoke_seed_in_range_witness :
    (invoke_stable_diffusion_body "p" (randint 0 4294967295 0) (some "photographic")).seed ≤
      4294967295 :=
  (invoke_seed_in_range okRemote 0 sd_model_id "p" (some "photographic")
      { diffusion := [], titan := [] }).1 sd_model_id
    (invoke_stable_diffusion_body "p" (randint 0 4294967295 0) (some "photographic"))
    (by decide)

/-- Claim C5 (confirmed): when the remote call fails with a `ClientError`, `invoke`
writes no file (its trace is exactly the banner, the remote-call event and the two log
records — no write event — and the directory state is returned untouched), the log
records carry the responsible model id, and the very same error propagates to the
caller.  Both providers behave alike. -/
theorem invoke_remote_failure (remote : Remote) (entropy : Nat) (prompt : String)
    (style_preset : Option String) (w : World) (info : ClientErrorInfo) :
    (remote sd_model_id (.sd (invoke_stable_diffusion_body prompt
        (randint 0 4294967295 entropy) style_preset)) = .error (.clientError info) →
      invoke remote entropy sd_model_id prompt style_preset w =
        ([Event.print dashes, Event.print ("Invoking: " ++ sd_model_id),
          Event.print ("Prompt: " ++ prompt),
          Event.remoteInvoke sd_model_id (.sd (invoke_stable_diffusion_body prompt
            (randint 0 4294967295 entropy) style_preset)),
          Event.logError "Couldn\x27t invoke Stable Diffusion XL",
          Event.logError ("Couldn\x27t invoke model " ++ sd_model_id)],
          w, .error (.clientError info))) ∧
    (remote titan_model_id (.titan (invoke_titan_image_body prompt
        (randint 0 2147483647 entropy))) = .error (.clientError info) →
      invoke remote entropy titan_model_id prompt style_preset w =
        ([Event.print dashes, Event.print ("Invoking: " ++ titan_model_id),
          Event.print ("Prompt: " ++ prompt),
          Event.remoteInvoke titan_model_id (.titan (invoke_titan_image_body prompt
            (randint 0 2147483647 entropy))),
          Event.logError "Couldn\x27t invoke Titan Image model",
          Event.logError ("Couldn\x27t invoke model " ++ titan_model_id)],
          w, .error (.clientError info))) := by
  constructor
  · intro hr
    rw [invoke, if_pos rfl]
    simp [invoke_stable_diffusion, hr]
  · intro hr
    rw [invoke, if_neg (by decide), if_pos rfl]
    simp [invoke_titan_image, hr]

/-- Claim C5 witness: the claim applied to the always-failing remote. -/
theorem invoke_remote_failure_witness :
    invoke failingRemote 3 sd_model_id "p" none { diffusion := [], titan := [] } =
      ([Event.print dashes, Event.print ("Invoking: " ++ sd_model_id),
        Event.print ("Prompt: " ++ "p"),
        Event.remoteInvoke sd_model_id (.sd (invoke_stable_diffusion_body "p"
          (randint 0 4294967295 3) none)),
        Event.logError "Couldn\x27t invoke Stable Diffusion XL",
        Event.logError ("Couldn\x27t invoke model " ++ sd_model_id)],
        { diffusion := [], titan := [] },
        .error (.clientError { message := "transport error" })) :=
  (invoke_remote_failure failingRemote 3 "p" none { diffusion := [], titan := [] }
    { message := "transport error" }).1 rfl

end ImageGenerator
